import Mathlib

/-!
Shallow embedding of `src/solar_roi_france.py` (solar ROI pipeline for
French addresses).  Geometry and network operations performed by external
libraries (osmnx, shapely, pyproj, requests) are modelled as oracles:
each fetched feature carries the library-computed projected attributes
(area in EPSG:2154, distance from the projected geometry to the projected
query point, buffer intersection flags), and each remote call is an input
describing the observed outcome (success payload or raised exception).
All numbers are modelled as rationals; an exception that escapes a Python
function is modelled as `Except.error`.
-/

/-- Geometry type tag of an OSM feature, as tested by
`b.geometry.type.isin(["Polygon", "MultiPolygon"])` in `get_buildings_around`. -/
inductive GeomType
  | point
  | lineString
  | polygon
  | multiPolygon
deriving DecidableEq

/-- One fetched OSM feature together with its library-computed projected
attributes: `projArea` models `geometry.area` after projection to EPSG:2154,
and `distToQuery` models `geometry.distance(user_pt_proj)` where the query
point has been projected from EPSG:4326 to EPSG:2154. -/
structure Feature where
  geomType : GeomType
  projArea : ℚ
  distToQuery : ℚ
deriving DecidableEq

/-- Exceptions that can escape the pipeline functions.
`geocodeFailure` models the RuntimeError raised by `geocode_address`;
`transport` models an uncaught exception from `requests.get` or
`features.features_from_point` (timeout, connection error);
`parse` models an uncaught exception from `r.json()`;
`noBuildingFound` models the ValueError raised by `select_roof_and_project`
on an empty GeoDataFrame; `noBuildingNearby` models the RuntimeError raised
by `evaluate_address` when `buildings.empty`. -/
inductive PipeError
  | geocodeFailure
  | transport
  | parse
  | noBuildingFound
  | noBuildingNearby
deriving DecidableEq

/-- Module constant `COST_PER_KW = 1600` (EUR per installed kWc). -/
def COST_PER_KW : ℚ := 1600

/-- Module constant `ELECTRICITY_PRICE = 0.20` (EUR per kWh). -/
def ELECTRICITY_PRICE : ℚ := 1/5

/-- Module constant `SYSTEM_LIFETIME = 20` (years). -/
def SYSTEM_LIFETIME : ℚ := 20

/-- Module constant `COVERAGE_RATIO = 0.6` (covered share of the roof). -/
def COVERAGE_RATIO : ℚ := 3/5

/-- Module constant `PANEL_EFFICIENCY = 0.18`. -/
def PANEL_EFFICIENCY : ℚ := 9/50

/-- Module constant `PERFORMANCE_RATIO = 0.75` (system losses). -/
def PERFORMANCE_RATIO : ℚ := 3/4

/-- Local constant `M2_PER_KW = 5.5` inside `economic_analysis`. -/
def M2_PER_KW : ℚ := 11/2

/-- Outcome of the `ox.geocode(address + ", France")` call inside
`geocode_address`: `none` means the library raised, `some (lat, lon)` is a
successful geocode. -/
def geocode_address : Option (ℚ × ℚ) → Except PipeError (ℚ × ℚ)
  | none => .error .geocodeFailure
  | some c => .ok c

/-- Outcome of the `features.features_from_point(center, {"building": True}, dist)`
call inside `get_buildings_around`: `raised` means the library call raised
(timeout, malformed response, ...), `ok feats` is the returned feature frame. -/
inductive FeatureFetch
  | raised
  | ok (features : List Feature)

/-- The polygon filter `b.geometry.type.isin(["Polygon", "MultiPolygon"])`. -/
def isPolygonal (f : Feature) : Bool :=
  match f.geomType with
  | .polygon => true
  | .multiPolygon => true
  | _ => false

/-- Embedding of `get_buildings_around`.  The source has no try/except: a
raised library call simply propagates to the caller, which is modelled as
`Except.error PipeError.transport`; on success the frame is filtered to
Polygon/MultiPolygon geometries and returned (possibly empty). -/
def get_buildings_around : FeatureFetch → Except PipeError (List Feature)
  | .raised => .error .transport
  | .ok feats => .ok (feats.filter isPolygonal)

/-- Embedding of `distances.idxmin()` (pandas) used in
`select_roof_and_project`: scans left to right keeping the first element
attaining the minimum of `distToQuery` (replacement only on a strictly
smaller distance, so earlier rows win ties). -/
def idxminAux (best : Feature) : List Feature → Feature
  | [] => best
  | x :: xs => idxminAux (if x.distToQuery < best.distToQuery then x else best) xs

/-- Embedding of `select_roof_and_project`.  The source raises ValueError
(here `PipeError.noBuildingFound`) on an empty GeoDataFrame; otherwise it
projects all buildings to EPSG:2154 (the projection is the oracle that
produced `Feature.distToQuery` and `Feature.projArea`), takes the row whose
distance to the projected query point is minimal (`idxmin`), and returns
that row together with the whole projected frame. -/
def select_roof_and_project : List Feature → Except PipeError (Feature × List Feature)
  | [] => .error .noBuildingFound
  | b :: bs => .ok (idxminAux b bs, b :: bs)

/-- The step function ending `compute_shade_factor`: density thresholds
0.1 / 0.25 / 0.4 mapped to factors 1.0 / 0.9 / 0.8 / 0.65. -/
def shadeStep (x : ℚ) : ℚ :=
  if x < 1/10 then 1
  else if x < 1/4 then 9/10
  else if x < 2/5 then 4/5
  else 13/20

/-- Embedding of `compute_shade_factor`.  `intersectsBuf b` models
`b.geometry.intersects(buf)` where `buf = roof_geom.buffer(buffer_m)` with
`buffer_m = 40`, and `bufArea` models `buf.area`; both are shapely-computed
oracles.  The source sums the areas of all intersecting buildings,
subtracts the roof area itself, clamps at 0, divides by the buffer area
and applies the step function. -/
def compute_shade_factor (buildings_proj : List Feature) (roof : Feature)
    (intersectsBuf : Feature → Bool) (bufArea : ℚ) : ℚ :=
  let neighbors := buildings_proj.filter intersectsBuf
  let built_area0 := (neighbors.map Feature.projArea).sum - roof.projArea
  let built_area := max built_area0 0
  shadeStep (built_area / bufArea)

/-- Observed outcome of the NASA POWER interaction inside
`get_solar_irradiance`: `requestRaised` means `requests.get` raised
(timeout, connection error); `jsonDecodeRaised` means `r.json()` raised;
`missingKeys` means the decoded JSON lacks the
`properties / parameter / ALLSKY_SFC_SW_DWN` path (KeyError or TypeError
inside the try block); `series values` is the successfully extracted list
of daily values. -/
inductive NasaOutcome
  | requestRaised
  | jsonDecodeRaised
  | missingKeys
  | series (values : List ℚ)

/-- Embedding of `get_solar_irradiance`.  In the source, `requests.get`
and `r.json()` sit OUTSIDE the try block, so their exceptions propagate;
only the key lookup and the empty-list ValueError are caught and turned
into the 3.8 fallback.  A non-empty series yields the mean of the raw
values (no filtering of non-positive entries). -/
def get_solar_irradiance : NasaOutcome → Except PipeError ℚ
  | .requestRaised => .error .transport
  | .jsonDecodeRaised => .error .parse
  | .missingKeys => .ok (38/10)
  | .series values =>
      if values = [] then .ok (38/10)
      else .ok (values.sum / (values.length : ℚ))

/-- Embedding of `estimate_yearly_production`.  The source defaults
`orientation_factor` to 0.9; here it is passed explicitly. -/
def estimate_yearly_production (area_m2 irr_daily shade_factor orientation_factor : ℚ) : ℚ :=
  let annual_irradiance := irr_daily * 365
  let panel_area := area_m2 * COVERAGE_RATIO
  let effective_irradiance := annual_irradiance * shade_factor * orientation_factor
  panel_area * effective_irradiance * PANEL_EFFICIENCY * PERFORMANCE_RATIO

/-- Embedding of `economic_analysis`: returns
(investment, payback, label). -/
def economic_analysis (annual_energy_kwh area_m2 : ℚ) : Option ℚ × Option ℚ × String :=
  if annual_energy_kwh ≤ 0 ∨ area_m2 ≤ 0 then (none, none, "Non viable")
  else
    let panel_area := area_m2 * COVERAGE_RATIO
    let kwp_installed := panel_area / M2_PER_KW
    let investment := kwp_installed * COST_PER_KW
    let annual_savings := annual_energy_kwh * ELECTRICITY_PRICE
    let payback : Option ℚ := if annual_savings ≤ 0 then none else some (investment / annual_savings)
    let label :=
      match payback with
      | none => "Peu intéressant financièrement"
      | some p =>
          if SYSTEM_LIFETIME < p then "Peu intéressant financièrement"
          else if p < 8 then "Très intéressant"
          else if p ≤ 12 then "Intéressant"
          else if p ≤ 20 then "Acceptable"
          else "Peu intéressant financièrement"
    (some investment, payback, label)

/-- The result dict returned by `evaluate_address`. -/
structure EvalResult where
  lat : ℚ
  lon : ℚ
  area_m2 : ℚ
  shade_factor : ℚ
  irradiance_daily_kwh_m2 : ℚ
  annual_energy_kwh : ℚ
  investment_eur : Option ℚ
  payback_years : Option ℚ
  decision : String

/-- External-world oracle for one run of `evaluate_address`: the observed
outcomes of the geocoding, footprint and NASA calls, plus the
shapely-computed 40 m buffer data (`intersects40 roof b` models
`b.geometry.intersects(roof_geom.buffer(40))`, and `buf40Area roof`
models `roof_geom.buffer(40).area`). -/
structure Env where
  geocodeResult : Option (ℚ × ℚ)
  fetchResult : FeatureFetch
  nasa : NasaOutcome
  intersects40 : Feature → Feature → Bool
  buf40Area : Feature → ℚ

/-- Embedding of `evaluate_address`: geocode, fetch buildings (dist=80),
abort with RuntimeError when the frame is empty, select the nearest roof,
take its projected area, compute the shade factor (buffer_m=40), fetch
irradiance, estimate the yearly production (orientation factor defaulted
to 0.9) and run the economic analysis. -/
def evaluate_address (env : Env) : Except PipeError EvalResult :=
  match geocode_address env.geocodeResult with
  | .error e => .error e
  | .ok (lat, lon) =>
    match get_buildings_around env.fetchResult with
    | .error e => .error e
    | .ok buildings =>
      if buildings = [] then .error .noBuildingNearby
      else
        match select_roof_and_project buildings with
        | .error e => .error e
        | .ok (roof, buildings_proj) =>
          let area_m2 := roof.projArea
          let shade := compute_shade_factor buildings_proj roof (env.intersects40 roof) (env.buf40Area roof)
          match get_solar_irradiance env.nasa with
          | .error e => .error e
          | .ok irr_daily =>
            let annual_energy := estimate_yearly_production area_m2 irr_daily shade (9/10)
            let econ := economic_analysis annual_energy area_m2
            .ok ⟨lat, lon, area_m2, shade, irr_daily, annual_energy, econ.1, econ.2.1, econ.2.2⟩

/-- Sample polygonal feature 120 m² at distance 12 m. -/
def fA : Feature := ⟨.polygon, 120, 12⟩

/-- Sample polygonal feature 80 m² at distance 7 m. -/
def fB : Feature := ⟨.polygon, 80, 7⟩

/-- Sample polygonal feature 100 m² at distance 60 m. -/
def fFar : Feature := ⟨.polygon, 100, 60⟩

/-- Sample intersection oracle: every building intersects the buffer. -/
def allIntersect : Feature → Bool := fun _ => true

/-- Sample buffer-area oracle (about the area of a 40 m disc). -/
def buf40AreaSample : Feature → ℚ := fun _ => 5026

/-- Sample environment whose footprint fetch returns an empty frame. -/
def envEmptyFetch : Env :=
  ⟨some (48, 2), .ok [], .series [], fun _ _ => true, buf40AreaSample⟩

/-- The running minimum returned by `idxminAux` is the initial best or one
of the remaining rows. -/
theorem idxminAux_mem (best : Feature) (xs : List Feature) :
    idxminAux best xs = best ∨ idxminAux best xs ∈ xs := by
  induction xs generalizing best with
  | nil => exact Or.inl rfl
  | cons x xs ih =>
      rcases ih (if x.distToQuery < best.distToQuery then x else best) with h | h
      · rw [idxminAux, h]
        split
        · exact Or.inr (List.mem_cons_self x xs)
        · exact Or.inl rfl
      · rw [idxminAux]
        exact Or.inr (List.mem_cons_of_mem x h)

/-- The running minimum is no farther than the initial best. -/
theorem idxminAux_le_best (best : Feature) (xs : List Feature) :
    (idxminAux best xs).distToQuery ≤ best.distToQuery := by
  induction xs generalizing best with
  | nil => exact le_refl _
  | cons x xs ih =>
      rw [idxminAux]
      refine le_trans (ih _) ?h
      split
      · exact le_of_lt (by assumption)
      · exact le_refl _

/-- The running minimum is no farther than any remaining row. -/
theorem idxminAux_le (best : Feature) (xs : List Feature) :
    ∀ x ∈ xs, (idxminAux best xs).distToQuery ≤ x.distToQuery := by
  induction xs generalizing best with
  | nil => intro x hx; cases hx
  | cons y ys ih =>
      intro x hx
      rw [idxminAux]
      rcases List.mem_cons.mp hx with rfl | hx
      · refine le_trans (idxminAux_le_best _ _) ?h
        split
        · exact le_refl _
        · exact le_of_not_lt (by assumption)
      · exact ih _ x hx

/-- C1: for every non-empty collection of building footprints (and every
query coordinate, folded into the library-computed projected distances),
`select_roof_and_project` returns a footprint from the collection such
that no other candidate in the input has a strictly smaller distance to
the projected query point. -/
theorem select_roof_minimizes (buildings : List Feature) (h : buildings ≠ []) :
    ∃ roof, select_roof_and_project buildings = .ok (roof, buildings) ∧
      roof ∈ buildings ∧ ∀ b ∈ buildings, roof.distToQuery ≤ b.distToQuery := by
  cases buildings with
  | nil => exact absurd rfl h
  | cons b bs =>
      refine ⟨idxminAux b bs, rfl, ?mem, ?min⟩
      · rcases idxminAux_mem b bs with hm | hm
        · rw [hm]; exact List.mem_cons_self b bs
        · exact List.mem_cons_of_mem b hm
      · intro c hc
        rcases List.mem_cons.mp hc with rfl | hc
        · exact idxminAux_le_best _ _
        · exact idxminAux_le _ _ c hc

/-- Witness for C1 at the concrete collection `[fA, fB]` (distances 12 and
7): the selector returns `fB`. -/
theorem select_roof_minimizes_witness :
    ∃ roof, select_roof_and_project [fA, fB] = .ok (roof, [fA, fB]) ∧
      roof ∈ [fA, fB] ∧ ∀ b ∈ [fA, fB], roof.distToQuery ≤ b.distToQuery :=
  select_roof_minimizes [fA, fB] (by simp)

/-- Counterexample to C2: a single candidate 60 m away (farther than the
alleged 50 m threshold) is still returned by `select_roof_and_project`;
no `BuildingTooFarError` exists anywhere in the source. -/
theorem select_no_threshold_cex :
    select_roof_and_project [fFar] = .ok (fFar, [fFar]) ∧ (50 : ℚ) < fFar.distToQuery := by
  exact ⟨rfl, by norm_num [fFar]⟩

/-- C2 amended: the roof selector applies no maximum-distance sanity
check: for every non-empty collection, even when every candidate is
farther than 50 m from the query point, selection succeeds and returns
the nearest footprint instead of failing. -/
theorem select_ignores_distance (buildings : List Feature) (h : buildings ≠ [])
    (hfar : ∀ b ∈ buildings, (50 : ℚ) < b.distToQuery) :
    ∃ roof, select_roof_and_project buildings = .ok (roof, buildings) ∧
      roof ∈ buildings ∧ (50 : ℚ) < roof.distToQuery := by
  cases buildings with
  | nil => exact absurd rfl h
  | cons b bs =>
      have hmem : idxminAux b bs ∈ b :: bs := by
        rcases idxminAux_mem b bs with hm | hm
        · rw [hm]; exact List.mem_cons_self b bs
        · exact List.mem_cons_of_mem b hm
      exact ⟨idxminAux b bs, rfl, hmem, hfar _ hmem⟩

/-- Witness for the amended C2 at the concrete collection `[fFar]`. -/
theorem select_ignores_distance_witness :
    ∃ roof, select_roof_and_project [fFar] = .ok (roof, [fFar]) ∧
      roof ∈ [fFar] ∧ (50 : ℚ) < roof.distToQuery :=
  select_ignores_distance [fFar] (by simp) (by intro b hb; rw [List.mem_singleton.mp hb]; norm_num [fFar])

/-- C8: on the empty footprint collection, roof selection fails with the
no-building error (the ValueError of `select_roof_and_project`) and never
returns a footprint; and in the full pipeline an empty fetched collection
is fatal: `evaluate_address` returns an error (the RuntimeError raised at
its empty check) rather than a result. -/
theorem empty_collection_fatal (env : Env) (c : ℚ × ℚ)
    (hgeo : env.geocodeResult = some c)
    (hfetch : get_buildings_around env.fetchResult = .ok []) :
    select_roof_and_project [] = .error .noBuildingFound ∧
      evaluate_address env = .error .noBuildingNearby := by
  refine ⟨rfl, ?fatal⟩
  rw [evaluate_address, hgeo]
  rcases c with ⟨lat, lon⟩
  rw [geocode_address, hfetch]
  simp

/-- Witness for C8: a concrete environment whose footprint fetch returns
an empty frame makes the whole evaluation fail. -/
theorem empty_collection_fatal_witness :
    select_roof_and_project [] = .error .noBuildingFound ∧
      evaluate_address envEmptyFetch = .error .noBuildingNearby :=
  empty_collection_fatal envEmptyFetch (48, 2) rfl rfl

/-- C10: for every input with non-positive annual energy or non-positive
area, `economic_analysis` returns `(None, None, "Non viable")` via its
initial guard, performing no cost or payback arithmetic. -/
theorem economic_analysis_nonviable (e a : ℚ) (h : e ≤ 0 ∨ a ≤ 0) :
    economic_analysis e a = (none, none, "Non viable") := by
  rw [economic_analysis, if_pos h]

/-- Witness for C10 at energy 0, area 50. -/
theorem economic_analysis_nonviable_witness :
    economic_analysis 0 50 = (none, none, "Non viable") :=
  economic_analysis_nonviable 0 50 (Or.inl (le_refl 0))

/-- Counterexample to C3: when `requests.get` raises (timeout, connection
error), `get_solar_irradiance` propagates the transport error to its
caller instead of returning the 3.8 fallback, because the HTTP call sits
outside the try block. -/
theorem irradiance_transport_cex :
    get_solar_irradiance .requestRaised = .error .transport ∧
      get_solar_irradiance .requestRaised ≠ .ok (38/10) := by
  refine ⟨rfl, ?ne⟩
  intro hcontra
  simp [get_solar_irradiance] at hcontra

/-- C3 amended: `get_solar_irradiance` returns the 3.8 fallback exactly
when the decoded JSON lacks the expected key path or the extracted series
is empty; an exception from the HTTP request or from JSON decoding
propagates to the caller (aborting the pipeline), and a non-empty series
with no positive values yields its raw mean (0 for an all-zero series),
not the fallback. -/
theorem irradiance_fallback_scope :
    get_solar_irradiance .requestRaised = .error .transport ∧
      get_solar_irradiance .jsonDecodeRaised = .error .parse ∧
      get_solar_irradiance .missingKeys = .ok (38/10) ∧
      get_solar_irradiance (.series []) = .ok (38/10) ∧
      get_solar_irradiance (.series [0, 0]) = .ok 0 := by
  refine ⟨rfl, rfl, rfl, rfl, ?zero⟩
  simp [get_solar_irradiance]

/-- Counterexample to C5: on the series `[5, -999]` (one physical value,
one negative sentinel) the function returns the raw mean `-497`, not the
mean `5` of the cleaned series: no value is ever discarded. -/
theorem irradiance_raw_mean_cex :
    get_solar_irradiance (.series [5, -999]) = .ok (-497) ∧ ((-497 : ℚ) ≠ 5) := by
  constructor
  · simp [get_solar_irradiance]
    norm_num
  · norm_num

/-- C5 amended: on a successfully extracted non-empty series,
`get_solar_irradiance` returns the arithmetic mean of the raw values,
with no prior discarding of non-positive sentinel values. -/
theorem irradiance_mean_of_raw (values : List ℚ) (h : values ≠ []) :
    get_solar_irradiance (.series values) = .ok (values.sum / (values.length : ℚ)) := by
  rw [get_solar_irradiance, if_neg h]

/-- Witness for the amended C5 at the series `[5, -999]`. -/
theorem irradiance_mean_of_raw_witness :
    get_solar_irradiance (.series [5, -999]) = .ok (([5, -999] : List ℚ).sum / (([5, -999] : List ℚ).length : ℚ)) :=
  irradiance_mean_of_raw [5, -999] (by simp)

/-- Counterexample to C4: at the inputs fixed by the claim (area 100 m²,
daily irradiance 3.8, neutral shade factor 1, default orientation factor
0.9) the code yields 10111.23 kWh/year, not the claimed four-factor
product 100 × 0.5 × (3.8 × 365) × 0.18 × 0.75 = 9362.25: the code uses
coverage 0.6 and multiplies in two further factors (shade, orientation). -/
theorem production_formula_cex :
    estimate_yearly_production 100 (38/10) 1 (9/10) = 1011123/100 ∧
      (1011123/100 : ℚ) ≠ 100 * (1/2) * ((38/10) * 365) * (18/100) * (75/100) := by
  constructor
  · norm_num [estimate_yearly_production, COVERAGE_RATIO, PANEL_EFFICIENCY, PERFORMANCE_RATIO]
  · norm_num

/-- C4 amended: the annual energy is the single product of six factors:
area × COVERAGE_RATIO (0.6) × annual irradiance (daily × 365) × shade
factor × orientation factor × PANEL_EFFICIENCY (0.18) ×
PERFORMANCE_RATIO (0.75); at area 100 m², daily irradiance 3.8, shade 1
and orientation 0.9 the result is 10111.23 kWh/year. -/
theorem production_six_factors (a i s o : ℚ) :
    estimate_yearly_production a i s o
      = a * COVERAGE_RATIO * (i * 365) * s * o * PANEL_EFFICIENCY * PERFORMANCE_RATIO := by
  rw [estimate_yearly_production]
  ring

/-- Counterexample to C7: when the footprint service call raises
(timeout, malformed response), `get_buildings_around` propagates the
exception rather than normalizing it to an empty collection: there is no
try/except in the function. -/
theorem fetch_propagates_cex :
    get_buildings_around .raised = .error .transport ∧
      get_buildings_around .raised ≠ .ok [] := by
  refine ⟨rfl, ?ne⟩
  intro hcontra
  simp [get_buildings_around] at hcontra

/-- C7 amended: on a successful response `get_buildings_around` returns
the polygon-filtered feature collection (the empty collection when the
service finds nothing polygonal), but a raised transport-level failure
propagates to the caller instead of being normalized to an empty
collection. -/
theorem fetch_behaviour (feats : List Feature) :
    get_buildings_around (.ok feats) = .ok (feats.filter isPolygonal) ∧
      get_buildings_around (.ok []) = .ok [] ∧
      get_buildings_around .raised = .error .transport :=
  ⟨rfl, rfl, rfl⟩

/-- `economic_analysis` in the viable case: when both annual energy and
area are positive, the payback component is investment / annual savings
(and the guard and inner None-branch are both skipped, since the savings
are then automatically positive). -/
theorem economic_analysis_pos (e a : ℚ) (he : 0 < e) (ha : 0 < a) :
    (economic_analysis e a).2.1
      = some ((a * COVERAGE_RATIO / M2_PER_KW * COST_PER_KW) / (e * ELECTRICITY_PRICE)) := by
  have hg : ¬ (e ≤ 0 ∨ a ≤ 0) := not_or.mpr ⟨not_le.mpr he, not_le.mpr ha⟩
  have hs : ¬ (e * ELECTRICITY_PRICE ≤ 0) := by
    rw [ELECTRICITY_PRICE]
    exact not_le.mpr (by positivity)
  simp [economic_analysis, hg, hs]

/-- Counterexample to C6: at annual energy 1000 kWh and area -5 m² the
guard returns payback None even though the annual savings
1000 × 0.20 = 200 EUR are strictly positive, so payback is not None
exactly when the annual savings are non-positive. -/
theorem payback_none_iff_cex :
    (economic_analysis 1000 (-5)).2.1 = none ∧ ¬ ((1000 : ℚ) * ELECTRICITY_PRICE ≤ 0) := by
  constructor
  · rw [economic_analysis, if_pos (by norm_num)]
  · rw [ELECTRICITY_PRICE]
    norm_num

/-- C6 amended: the payback period is None exactly when the input guard
fires (annual energy ≤ 0 or area ≤ 0); for positive energy and positive
area the annual savings are automatically positive and the payback equals
investment / annual savings exactly. -/
theorem payback_none_iff (e a : ℚ) :
    ((economic_analysis e a).2.1 = none ↔ (e ≤ 0 ∨ a ≤ 0)) ∧
      (0 < e → 0 < a → (economic_analysis e a).2.1
        = some ((a * COVERAGE_RATIO / M2_PER_KW * COST_PER_KW) / (e * ELECTRICITY_PRICE))) := by
  constructor
  · by_cases hg : e ≤ 0 ∨ a ≤ 0
    · rw [economic_analysis, if_pos hg]
      simpa using hg
    · push_neg at hg
      have h1 := not_le.mpr hg.1
      have h2 := not_le.mpr hg.2
      rw [economic_analysis_pos e a hg.1 hg.2]
      simp [h1, h2]
  · intro he ha
    exact economic_analysis_pos e a he ha

/-- Witness for the amended C6 at energy 1000 kWh, area 100 m². -/
theorem payback_none_iff_witness :
    ((economic_analysis 1000 100).2.1 = none ↔ ((1000 : ℚ) ≤ 0 ∨ (100 : ℚ) ≤ 0)) ∧
      (economic_analysis 1000 100).2.1
        = some ((100 * COVERAGE_RATIO / M2_PER_KW * COST_PER_KW) / (1000 * ELECTRICITY_PRICE)) :=
  ⟨(payback_none_iff 1000 100).1, (payback_none_iff 1000 100).2 (by norm_num) (by norm_num)⟩

/-- C9: when the intersecting footprints consist of the selected roof
(counted once) plus the other footprints with total area `othersSum`,
`compute_shade_factor` equals the step function applied to the built-up
density ratio othersSum / buffer area; the step function always lies in
[0.65, 1.0] and is monotonically non-increasing, so denser surroundings
never yield a larger shade multiplier. -/
theorem shade_factor_spec (buildings_proj : List Feature) (roof : Feature)
    (intersectsBuf : Feature → Bool) (bufArea othersSum : ℚ)
    (hsum : ((buildings_proj.filter intersectsBuf).map Feature.projArea).sum
        = roof.projArea + othersSum)
    (hnn : 0 ≤ othersSum) :
    compute_shade_factor buildings_proj roof intersectsBuf bufArea
        = shadeStep (othersSum / bufArea) ∧
      (∀ x : ℚ, 13/20 ≤ shadeStep x ∧ shadeStep x ≤ 1) ∧
      (∀ x y : ℚ, x ≤ y → shadeStep y ≤ shadeStep x) := by
  refine ⟨?eq, ?bounds, ?mono⟩
  · simp only [compute_shade_factor, hsum]
    have hcancel : roof.projArea + othersSum - roof.projArea = othersSum := by ring
    rw [hcancel, max_eq_left hnn]
  · intro x
    rw [shadeStep]
    split_ifs <;> norm_num
  · intro x y hxy
    rw [shadeStep, shadeStep]
    split_ifs <;> linarith

/-- Witness for C9: roof `fA` (120 m²) with one 80 m² neighbor inside the
buffer of area 5026 m². -/
theorem shade_factor_spec_witness :
    compute_shade_factor [fA, fB] fA allIntersect 5026 = shadeStep ((80 : ℚ) / 5026) :=
  (shade_factor_spec [fA, fB] fA allIntersect 5026 80 (by simp [allIntersect, fA, fB]) (by norm_num)).1
